import Mathlib

/-!
Verification of the interactive terminal-session manager in
`examples/claude_voice_interactive.py` (with the shared wake-phrase
extraction also present in `examples/claude_voice.py`).

Text is embedded as `List Char`; every Python string primitive used by
the code (`lower`, `strip`, `in`, `split(sep, 1)`, `split(sep)[-1]`,
`lstrip(',')`, and the anchored filler-word regex) is given an explicit
executable Lean counterpart below, translated from CPython semantics on
ASCII input.
-/

/-- Python whitespace for `str.strip()` and the regex class `\s`
(ASCII range): space, tab, newline, carriage return, vertical tab,
form feed. -/
def pyIsSpace (c : Char) : Bool :=
  c == ' ' || c == '\t' || c == '\n' || c == '\r' || c == '\x0b' || c == '\x0c'

/-- Drop the longest prefix whose characters satisfy `p`
(Python `lstrip` generalised to a predicate). -/
def stripLeftP (p : Char → Bool) : List Char → List Char
  | [] => []
  | c :: rest => if p c then stripLeftP p rest else c :: rest

/-- Drop the longest suffix whose characters satisfy `p`. -/
def stripRightP (p : Char → Bool) (t : List Char) : List Char :=
  (stripLeftP p t.reverse).reverse

/-- Python `str.strip()` with no argument: remove whitespace at both ends. -/
def pyStrip (t : List Char) : List Char :=
  stripRightP pyIsSpace (stripLeftP pyIsSpace t)

/-- Python `str.lower()` on ASCII text. -/
def pyLower (t : List Char) : List Char :=
  t.map Char.toLower

/-- Python `str.lstrip(',')`: remove leading commas. -/
def lstripComma (t : List Char) : List Char :=
  stripLeftP (fun c => c == ',') t

/-- Python substring containment `sub in t` (also used for write-call
sequences, hence polymorphic): true iff `sub` occurs contiguously in `t`;
the empty sequence is contained in everything. -/
def containsSeq [BEq α] (sub : List α) : List α → Bool
  | [] => sub.isEmpty
  | c :: rest => sub.isPrefixOf (c :: rest) || containsSeq sub rest

/-- Python `t.split(sep, 1)` for nonempty `sep`, as an option: `some
(before, after)` around the first occurrence of `sep`, `none` when `sep`
does not occur. -/
def splitFirst (sep : List Char) : List Char → Option (List Char × List Char)
  | [] => if sep.isEmpty then some ([], []) else none
  | c :: rest =>
    if sep.isPrefixOf (c :: rest) then some ([], (c :: rest).drop sep.length)
    else
      match splitFirst sep rest with
      | some (pre, post) => some (c :: pre, post)
      | none => none

/-- Helper for `afterLast`: the suffix after the last occurrence of `sep`,
`none` when `sep` does not occur. Occurrences further right are preferred. -/
def afterLastAux (sep : List Char) : List Char → Option (List Char)
  | [] => if sep.isEmpty then some [] else none
  | c :: rest =>
    match afterLastAux sep rest with
    | some r => some r
    | none =>
      if sep.isPrefixOf (c :: rest) then some ((c :: rest).drop sep.length)
      else none

/-- Python `t.split(sep)[-1]`: the suffix after the last occurrence of
`sep`, or all of `t` when `sep` does not occur. -/
def afterLast (sep t : List Char) : List Char :=
  (afterLastAux sep t).getD t

/-- The wake-phrase list, in source order (`WAKE_PHRASES` in the code);
"claude" comes first and is a substring of the later entries. -/
def WAKE_PHRASES : List (List Char) :=
  [ "claude".data, "hey claude".data, "ok claude".data, "hi claude".data]

/-- The filler alternatives of the regex
`^[,\s]*(please|can you|could you|would you)\s*`, in source order. -/
def fillerWords : List (List Char) :=
  [ "please".data, "can you".data, "could you".data, "would you".data]

/-- A character matched by the regex class `[,\s]`. -/
def isFillerClassChar (c : Char) : Bool :=
  c == ',' || pyIsSpace c

/-- `re.sub(r'^[,\s]*(please|can you|could you|would you)\s*', '', cmd)`.
The class prefix is greedy, and since every filler alternative starts with
a letter outside `[,\s]`, the regex matches exactly when the text after
the maximal `[,\s]*` prefix starts with one of the alternatives; on a
match, the prefix, the filler and the following `\s*` are removed,
otherwise the text is unchanged. -/
def stripFiller (cmd : List Char) : List Char :=
  let rest := stripLeftP isFillerClassChar cmd
  match fillerWords.find? (fun f => f.isPrefixOf rest) with
  | some f => stripLeftP pyIsSpace (rest.drop f.length)
  | none => cmd

/-- `extract_command` from `claude_voice_interactive.py` lines 58-71
(identical in `claude_voice.py` lines 59-75).  On the lowercased,
stripped text, the first wake phrase (in list order) that occurs decides:
with nonempty filler-stripped trailing text the function returns the part
of the ORIGINAL text after the LAST occurrence of the phrase, whitespace
stripped and leading commas removed — the filler-stripped `cmd` is used
only for the emptiness test; otherwise it returns the empty sentinel.
No phrase occurring yields `none`. -/
def extract_command (text : List Char) : Option (List Char) :=
  let textLower := pyStrip (pyLower text)
  match WAKE_PHRASES.find? (fun phrase => containsSeq phrase textLower) with
  | none => none
  | some phrase =>
    match splitFirst phrase textLower with
    | some (_, after) =>
      let cmd := stripFiller (pyStrip after)
      if cmd.isEmpty then some []
      else some (pyStrip (lstripComma (pyStrip (afterLast phrase text))))
    | none => some []

example : extract_command ( "hey claude".data) = some [] := by decide
example : extract_command ( "list files".data) = none := by decide
example : extract_command ( "claude please list files".data)
    = some ( "please list files".data) := by decide
example : extract_command ( "claude run tests".data)
    = some ( "run tests".data) := by decide

/-!
Session model, from `ClaudeInteractiveSession`.  The child process state
tracks whether the child is alive, a zombie (exited, status not yet
collected), or reaped; `termSignalsSent` counts SIGTERMs actually
delivered by `os.kill` (the call raises, and is swallowed, once the child
has been reaped).
-/

/-- State of the child process spawned by `pty.fork`. -/
inductive ChildStatus
  /-- No child has been spawned yet (fresh session). -/
  | notSpawned
  /-- The child is alive. -/
  | running
  /-- The child has exited with this code but has not been reaped. -/
  | exitedCode (c : Nat)
  /-- The child exited with this code and its status was collected. -/
  | reapedCode (c : Nat)
  /-- The child was killed by the termination signal and reaped. -/
  | reapedSignaled
deriving DecidableEq, Repr

/-- The fields of `ClaudeInteractiveSession` (plus the child-process and
signal bookkeeping needed to express the claims): `running`, `pid`,
`master_fd` and `command_queue` are the attributes set in `__init__`;
`relaysStarted` records that `start()` launched the three I/O loops. -/
structure Session where
  running : Bool
  pid : Option Nat
  masterFd : Option Nat
  cmdQueue : List (List Char)
  child : ChildStatus
  termSignalsSent : Nat
  relaysStarted : Bool
deriving DecidableEq, Repr

/-- A session as built by `__init__`: not running, no pid, no master
descriptor, empty queue. -/
def freshSession : Session :=
  { running := false, pid := none, masterFd := none, cmdQueue := []
    child := ChildStatus.notSpawned, termSignalsSent := 0, relaysStarted := false }

/-- `start()` (lines 89-110), parent branch.  `pty.fork()` is an external
call modelled by its outcome: on success it yields the child pid and the
master descriptor, which are then assigned, the running flag is set and
the three relay loops are started; if it raises, the exception propagates
(returned as `some errno`) before any assignment, so the session keeps
exactly the fields it had. -/
def start (s : Session) (forkRes : Except Nat (Nat × Nat)) :
    Session × Option Nat :=
  match forkRes with
  | Except.error e => (s, some e)
  | Except.ok (p, f) =>
    ({ s with pid := some p, masterFd := some f, running := true
              child := ChildStatus.running, relaysStarted := true }, none)

/-- The externally visible steps of `stop()` in source order. -/
inductive StopAction
  /-- `self.running = False` -/
  | clearFlag
  /-- `self.command_queue.put("EXIT")` -/
  | enqueueSentinel
  /-- `os.kill(self.pid, signal.SIGTERM)` was called (it raises, and the
  exception is swallowed, when the child is already reaped). -/
  | killAttempted
  /-- `os.waitpid(self.pid, 0)` collected the exit status (skipped when
  the preceding kill raised). -/
  | waited
deriving DecidableEq, Repr

/-- `stop()` (lines 175-184).  It clears the running flag, enqueues the
"EXIT" sentinel, and then — when a pid exists — immediately calls
`os.kill(pid, SIGTERM)` followed by `os.waitpid`, with any exception
swallowed by the bare `except`.  There is no grace period and no check
whether the child already exited; the Python function has no return
statement, so the returned value (second component) is always `none`.
The third component is the action trace. -/
def stop (s : Session) : Session × Option Nat × List StopAction :=
  let s1 : Session :=
    { s with running := false, cmdQueue := s.cmdQueue ++ [ "EXIT".data] }
  match s1.pid with
  | none => (s1, none, [StopAction.clearFlag, StopAction.enqueueSentinel])
  | some _ =>
    match s1.child with
    | ChildStatus.running =>
      ({ s1 with child := ChildStatus.reapedSignaled
                 termSignalsSent := s1.termSignalsSent + 1 },
       none,
       [StopAction.clearFlag, StopAction.enqueueSentinel,
        StopAction.killAttempted, StopAction.waited])
    | ChildStatus.exitedCode c =>
      ({ s1 with child := ChildStatus.reapedCode c
                 termSignalsSent := s1.termSignalsSent + 1 },
       none,
       [StopAction.clearFlag, StopAction.enqueueSentinel,
        StopAction.killAttempted, StopAction.waited])
    | _ =>
      (s1, none,
       [StopAction.clearFlag, StopAction.enqueueSentinel,
        StopAction.killAttempted])

/-!
Command injector, from `_process_commands` (lines 150-169): one iteration
of the drain loop.
-/

/-- Result of one iteration of the `_process_commands` drain loop:
the `os.write` calls it performed (each element is the byte payload of
ONE write call), the queue afterwards, the running flag afterwards, and
whether the loop terminated (by `break` or because the flag was observed
clear). -/
structure InjectorOutcome where
  writes : List (List Char)
  queueAfter : List (List Char)
  runningAfter : Bool
  loopEnded : Bool
deriving DecidableEq, Repr

/-- One iteration of `_process_commands`.  With the flag clear the loop
exits without popping.  Otherwise it pops the head command (an empty
queue is the `queue.Empty` timeout: `continue`).  The sentinel "EXIT"
causes a single write of "/exit\n" and `break` — the running flag is NOT
touched.  A nonempty command is written one character per `os.write`
call followed by a separate write of the carriage return; an empty
command is skipped. -/
def injectorStep (running : Bool) (q : List (List Char)) : InjectorOutcome :=
  if !running then
    { writes := [], queueAfter := q, runningAfter := running, loopEnded := true }
  else
    match q with
    | [] =>
      { writes := [], queueAfter := [], runningAfter := running, loopEnded := false }
    | c :: rest =>
      if c = "EXIT".data then
        { writes := [ "/exit\n".data], queueAfter := rest
          runningAfter := running, loopEnded := true }
      else if c.isEmpty then
        { writes := [], queueAfter := rest, runningAfter := running, loopEnded := false }
      else
        { writes := c.map (fun ch => [ch]) ++ [['\r']], queueAfter := rest
          runningAfter := running, loopEnded := false }

/-- The sequence of `os.write` payloads `_process_commands` issues when
typing one ordinary command: one call per character, then one call for
the carriage return. -/
def commandWrites (cmd : List Char) : List (List Char) :=
  cmd.map (fun ch => [ch]) ++ [['\r']]

/-- The sequence of `os.write` payloads `_read_keyboard` (lines 130-148)
issues for the characters it reads: one call per character. -/
def keyboardWrites (chars : List Char) : List (List Char) :=
  chars.map (fun ch => [ch])

/-- `isMerge xs ys zs` holds when `zs` is an order-preserving
interleaving of the write-call sequences `xs` and `ys`: the concurrent
executions of the keyboard relay and the command injector produce
exactly the merges of their per-thread write sequences, since each
`os.write` call is a single atomic event. -/
def isMerge [BEq α] : List α → List α → List α → Bool
  | [], ys, zs => ys == zs
  | xs, [], zs => xs == zs
  | _ :: _, _ :: _, [] => false
  | x :: xs, y :: ys, z :: zs =>
    (z == x && isMerge xs (y :: ys) zs) || (z == y && isMerge (x :: xs) ys zs)

/-!
Voice dispatch, from the `while session.running:` loop of `main`
(lines 229-260): state of the loop across utterances.
-/

/-- The dispatch-loop state: the `listening_for_command` latch, the
commands placed on the session queue so far, and whether the loop has
requested stop and broken out. -/
structure DispatchState where
  listening : Bool
  queue : List (List Char)
  stopRequested : Bool
deriving DecidableEq, Repr

/-- The dispatch state when the loop is entered:
`listening_for_command = False`, empty queue. -/
def dispatchInit : DispatchState :=
  { listening := false, queue := [], stopRequested := false }

/-- One iteration of the `main` dispatch loop on one utterance.  After a
stop request the loop has exited (`break`), so further utterances change
nothing.  Whitespace-only text is skipped.  Text containing both "exit"
and "claude" (lowercased) calls `session.stop()` — which enqueues the
"EXIT" sentinel — and breaks.  Otherwise `extract_command` decides: a
nonempty command is enqueued via `send_command` with the latch left
untouched; the empty sentinel arms the latch; with no wake phrase, an
armed latch enqueues the utterance verbatim and clears the latch. -/
def dispatchStep (s : DispatchState) (text : List Char) : DispatchState :=
  if s.stopRequested then s
  else if (pyStrip text).isEmpty then s
  else if containsSeq ( "exit".data) (pyLower text)
          && containsSeq ( "claude".data) (pyLower text) then
    { s with stopRequested := true, queue := s.queue ++ [ "EXIT".data] }
  else
    match extract_command text with
    | some c =>
      if c.isEmpty then { s with listening := true }
      else { s with queue := s.queue ++ [c] }
    | none =>
      if s.listening then
        { s with listening := false, queue := s.queue ++ [text] }
      else s

/-- The dispatch loop run over a list of utterances. -/
def dispatchRun (s : DispatchState) (texts : List (List Char)) : DispatchState :=
  texts.foldl dispatchStep s

/-!
Top-level driver, from `main` (lines 187-278): the exit paths of the
`try` block and the `except`/`finally` handling.  Terminal attributes
are opaque codes; the external `stty sane` invoked by `reset_terminal`
is recorded as an event (its effect lives outside the repository).
-/

/-- How the body of `main`'s `try` block ends once the driving loop has
been reached. -/
inductive MainOutcome
  /-- The driving loop finished normally (session stopped running). -/
  | normal
  /-- `KeyboardInterrupt` was raised. -/
  | keyboardInterrupt
  /-- Any other uncaught exception reached the `except Exception` handler. -/
  | uncaughtError
deriving DecidableEq, Repr

/-- Externally visible events of `main`'s exit handling, in order. -/
inductive MainEvent
  /-- The failure is reported: the `print` in an `except` handler
  (error message and traceback, or the interrupt notice). -/
  | report
  /-- `session.stop()` in the `finally` block. -/
  | stopSession
  /-- `termios.tcsetattr(sys.stdin, TCSADRAIN, old_settings)` in the
  `finally` block. -/
  | restoreAttrs
  /-- `reset_terminal()` — the unconditional `stty sane` fallback. -/
  | resetTerminal
deriving DecidableEq, Repr

/-- Terminal-facing state of `main`: the current attributes of the real
terminal, the snapshot `old_settings`, and whether the session was
stopped and the reset issued. -/
structure MainState where
  attrs : Nat
  saved : Option Nat
  sessionStopped : Bool
  resetIssued : Bool
deriving DecidableEq, Repr

/-- The `finally` block of `main` (lines 268-278): stop the session if
one exists, restore the saved attributes if a snapshot was taken
(best-effort), then always run `reset_terminal`. -/
def mainCleanup (st : MainState) : MainState × List MainEvent :=
  let st1 := { st with sessionStopped := true }
  match st1.saved with
  | some a =>
    ({ st1 with attrs := a, resetIssued := true },
     [MainEvent.stopSession, MainEvent.restoreAttrs, MainEvent.resetTerminal])
  | none =>
    ({ st1 with resetIssued := true },
     [MainEvent.stopSession, MainEvent.resetTerminal])

/-- The exit handling of `main` for a run that reached the driving loop:
`old_settings` was captured as `a0` before raw mode was entered, the
keyboard relay put the terminal into raw mode, and at the moment the
loop exits the attributes are some arbitrary `mid` (raw, partially
restored, or whatever an abnormally dying child left).  On the two
failure outcomes the `except` handler prints its report FIRST; the
`finally` cleanup then runs on every path. -/
def mainRun (a0 mid : Nat) (outcome : MainOutcome) : MainState × List MainEvent :=
  let body : MainState :=
    { attrs := mid, saved := some a0, sessionStopped := false, resetIssued := false }
  match outcome with
  | MainOutcome.normal => mainCleanup body
  | MainOutcome.keyboardInterrupt =>
    let r := mainCleanup body
    (r.1, MainEvent.report :: r.2)
  | MainOutcome.uncaughtError =>
    let r := mainCleanup body
    (r.1, MainEvent.report :: r.2)

/-- A session whose child is still alive, as after a successful
`start()`. -/
def sampleRunningSession : Session :=
  { running := true, pid := some 7, masterFd := some 3, cmdQueue := []
    child := ChildStatus.running, termSignalsSent := 0, relaysStarted := true }

/-- A session whose child has already exited (status not yet collected)
— the state after the child terminates on its own mid-session. -/
def sampleExitedSession : Session :=
  { running := true, pid := some 7, masterFd := some 3, cmdQueue := []
    child := ChildStatus.exitedCode 0, termSignalsSent := 0, relaysStarted := true }

/-!
Theorems, one block per claim.
-/

/-- C1 counterexample: the keyboard relay and the command injector share
no lock, and a command is issued as one `os.write` per character plus a
separate write of the carriage return; the interleaving in which the
keyboard byte "k" lands between the two characters of the injected
command "ab" is a valid merge of the two write sequences, and in it the
command's write calls are not contiguous — so the claimed mutual
exclusion fails. -/
theorem c1_command_split_counterexample :
    isMerge (keyboardWrites ( "k".data)) (commandWrites ( "ab".data))
      [['a'], ['k'], ['b'], ['\r']] = true
    ∧ containsSeq (commandWrites ( "ab".data))
      [['a'], ['k'], ['b'], ['\r']] = false := by decide

/-- C1 (amended): writes from the keyboard relay and the command
injector are not mutually exclusive per command — only each single
`os.write` call is atomic, and an injected command spans one write per
character plus one for the carriage return, so there exists a valid
write-call interleaving of the two loops in which keyboard bytes split
the command's character sequence. -/
theorem c1_writes_can_split_command :
    ∃ m, isMerge (keyboardWrites ( "k".data)) (commandWrites ( "ab".data)) m = true
      ∧ containsSeq (commandWrites ( "ab".data)) m = false :=
  ⟨[['a'], ['k'], ['b'], ['\r']], by decide⟩

/-- C2 counterexample: on the uncaught-exception exit path the `except
Exception` handler prints the error and traceback BEFORE the `finally`
block runs, so the cleanup sequence does not run before the failure is
reported: in the event trace the report strictly precedes the session
stop (and all other cleanup events). -/
theorem c2_report_precedes_cleanup_counterexample :
    (mainRun 0 1 MainOutcome.uncaughtError).2
      = [MainEvent.report, MainEvent.stopSession,
         MainEvent.restoreAttrs, MainEvent.resetTerminal]
    ∧ (mainRun 0 1 MainOutcome.uncaughtError).2.indexOf MainEvent.report
        < (mainRun 0 1 MainOutcome.uncaughtError).2.indexOf MainEvent.stopSession := by
  decide

/-- C2 (amended): on every exit path of the top-level driving loop —
normal completion, uncaught exception, keyboard interrupt — the complete
cleanup sequence (session stop, restoration of the attribute snapshot
captured before raw mode was entered, then the unconditional terminal
reset) runs before the process exits, and afterwards the terminal
attributes equal the snapshot even if the child terminated abnormally
mid-session; on the failure paths, however, the failure is reported
before the cleanup runs, not after it. -/
theorem c2_cleanup_on_every_exit_path (a0 mid : Nat) (outcome : MainOutcome) :
    (mainRun a0 mid outcome).1.attrs = a0
    ∧ (mainRun a0 mid outcome).1.sessionStopped = true
    ∧ (mainRun a0 mid outcome).1.resetIssued = true
    ∧ ∃ pre, (mainRun a0 mid outcome).2
        = pre ++ [MainEvent.stopSession, MainEvent.restoreAttrs,
                  MainEvent.resetTerminal] := by
  cases outcome with
  | normal => exact ⟨rfl, rfl, rfl, [], rfl⟩
  | keyboardInterrupt => exact ⟨rfl, rfl, rfl, [MainEvent.report], rfl⟩
  | uncaughtError => exact ⟨rfl, rfl, rfl, [MainEvent.report], rfl⟩

/-- C3 counterexample: the second invocation of `stop()` is not a no-op
— it enqueues the "EXIT" sentinel again, so the resulting session state
differs from the state after a single invocation; moreover `stop()` has
no return statement, so it returns `none` rather than the collected
child exit result. -/
theorem c3_second_stop_not_noop_counterexample :
    (stop (stop sampleExitedSession).1).1 ≠ (stop sampleExitedSession).1
    ∧ (stop sampleExitedSession).2.1 = none := by decide

/-- C3 (amended): `stop()` is idempotent except for the command queue
and returns no exit result: a second invocation leaves the running flag,
child state, pid and delivered-signal count exactly as after the first,
surfaces no error (the duplicate `os.kill`/`os.waitpid` failures are
swallowed by the bare `except`), but appends another "EXIT" sentinel to
the queue and again returns `none`, discarding the collected exit
status. -/
theorem c3_stop_idempotent_mod_queue (s : Session) :
    (stop (stop s).1).1
      = { (stop s).1 with cmdQueue := (stop s).1.cmdQueue ++ [ "EXIT".data] }
    ∧ (stop (stop s).1).2.1 = none
    ∧ (stop (stop s).1).1.termSignalsSent = (stop s).1.termSignalsSent
    ∧ (stop (stop s).1).1.child = (stop s).1.child
    ∧ (stop (stop s).1).1.running = (stop s).1.running := by
  obtain ⟨run, pid, fd, q, child, sig, rel⟩ := s
  cases pid <;> cases child <;> simp [stop]

/-- C4 counterexample: `stop()` on a session whose child has ALREADY
exited still delivers the termination signal, immediately after
enqueuing the sentinel — the action trace contains no grace-period step
and the signal is not conditional on the child not having exited. -/
theorem c4_signal_despite_exit_counterexample :
    sampleExitedSession.child = ChildStatus.exitedCode 0
    ∧ (stop sampleExitedSession).1.termSignalsSent = 1
    ∧ (stop sampleExitedSession).2.2
        = [StopAction.clearFlag, StopAction.enqueueSentinel,
           StopAction.killAttempted, StopAction.waited] := by decide

/-- C4 (amended): `stop()` clears the running flag, enqueues the fixed
shutdown sentinel, and then — with no grace period and regardless of
whether the child has already exited — immediately attempts the
termination signal, waiting for the exit status only when the signal
call did not raise (it raises, and is swallowed, once the child is
reaped); because the flag is cleared before the sentinel is enqueued
and `stop()` never waits for the injector, the shutdown directive is
not guaranteed to be written to the child before it is signaled. -/
theorem c4_stop_signals_unconditionally (s : Session) (p : Nat)
    (h : s.pid = some p) :
    (stop s).2.2
      = [StopAction.clearFlag, StopAction.enqueueSentinel, StopAction.killAttempted]
        ++ (match s.child with
            | ChildStatus.running => [StopAction.waited]
            | ChildStatus.exitedCode _ => [StopAction.waited]
            | _ => [])
    ∧ (stop s).1.running = false
    ∧ (stop s).1.cmdQueue = s.cmdQueue ++ [ "EXIT".data] := by
  obtain ⟨run, pid, fd, q, child, sig, rel⟩ := s
  simp only at h
  subst h
  cases child <;> simp [stop]

/-- C4 witness: the amended statement applied to a concrete session with
a live child. -/
theorem c4_stop_signals_unconditionally_witness :
    (stop sampleRunningSession).2.2
      = [StopAction.clearFlag, StopAction.enqueueSentinel,
         StopAction.killAttempted, StopAction.waited]
    ∧ (stop sampleRunningSession).1.running = false
    ∧ (stop sampleRunningSession).1.cmdQueue = [ "EXIT".data] := by
  simpa [sampleRunningSession] using
    c4_stop_signals_unconditionally sampleRunningSession 7 rfl

/-- C5 counterexample: when the drain loop pops the "EXIT" sentinel it
writes the shutdown directive and breaks, but it does NOT request
session stop — the running flag it observed is left set. -/
theorem c5_sentinel_leaves_flag_set_counterexample :
    (injectorStep true [ "EXIT".data]).writes = [ "/exit\n".data]
    ∧ (injectorStep true [ "EXIT".data]).loopEnded = true
    ∧ (injectorStep true [ "EXIT".data]).runningAfter = true := by decide

/-- C5 (amended): when the command-injector drain loop pops the shutdown
sentinel it writes the fixed shutdown directive followed by the line
terminator to the master handle as a single write and terminates its
drain loop, but it does not itself clear the running flag or otherwise
request session stop — the flag is cleared elsewhere (by `stop()` or on
child EOF). -/
theorem c5_sentinel_writes_directive_and_breaks (rest : List (List Char)) :
    injectorStep true ( "EXIT".data :: rest)
      = { writes := [ "/exit\n".data], queueAfter := rest
          runningAfter := true, loopEnded := true } := by
  simp [injectorStep]

/-- C6 counterexample: for the utterance "claude please list files" the
extraction does NOT return "list files" — the filler-stripped text is
used only to test that a command is present, while the returned value is
recomputed from the original text without stripping the filler. -/
theorem c6_filler_not_stripped_counterexample :
    extract_command ( "claude please list files".data)
      ≠ some ( "list files".data) := by decide

/-- C6 (amended): for the utterance "claude please list files",
wake-phrase extraction returns the command "please list files": the
leading filler word is stripped only from the lowercased copy used to
decide that trailing text is present, and the extracted command is the
original text after the wake phrase with surrounding whitespace and
leading commas removed, filler retained. -/
theorem c6_filler_kept_in_returned_command :
    extract_command ( "claude please list files".data)
      = some ( "please list files".data) := by decide

/-- C7: processing the utterance sequence ["hey claude", "list files"]
enqueues exactly one command, "list files": the wake phrase alone yields
the empty sentinel, arming the listening latch without enqueuing, and
the next utterance is enqueued verbatim, clearing the latch. -/
theorem c7_wake_then_command_sequence :
    (dispatchStep dispatchInit ( "hey claude".data)).queue = []
    ∧ (dispatchStep dispatchInit ( "hey claude".data)).listening = true
    ∧ (dispatchRun dispatchInit [ "hey claude".data, "list files".data]).queue
        = [ "list files".data]
    ∧ (dispatchRun dispatchInit [ "hey claude".data, "list files".data]).listening
        = false
    ∧ (dispatchRun dispatchInit
        [ "hey claude".data, "list files".data]).stopRequested = false := by
  decide

/-- C8: `start()` fails by propagating the startup error (the spec's
`StartupError`) when the pseudo-terminal pair cannot be allocated or the
child cannot be spawned — `pty.fork()` raises before the tuple
assignment, so the session retains exactly the fields it had, and a
fresh session in particular holds no descriptor and no pid: nothing is
leaked into the session on failure. -/
theorem c8_start_failure_propagates_no_leak (s : Session) (e : Nat) :
    start s (Except.error e) = (s, some e)
    ∧ (start s (Except.error e)).1.masterFd = s.masterFd
    ∧ (start s (Except.error e)).1.pid = s.pid
    ∧ (start freshSession (Except.error e)).1.masterFd = none
    ∧ (start freshSession (Except.error e)).1.pid = none :=
  ⟨rfl, rfl, rfl, rfl, rfl⟩

/-- C9: when the literal text "EXIT" reaches the queue as an ordinary
voice command (enqueued verbatim through the armed listening latch), the
injector's sentinel test matches it: instead of typing it
character-by-character it writes the shutdown directive "/exit\n" in one
call and terminates its drain loop, exactly as for a shutdown request. -/
theorem c9_exit_text_acts_as_sentinel :
    (dispatchStep { listening := true, queue := [], stopRequested := false }
        ( "EXIT".data)).queue = [ "EXIT".data]
    ∧ (dispatchStep { listening := true, queue := [], stopRequested := false }
        ( "EXIT".data)).stopRequested = false
    ∧ (dispatchStep { listening := true, queue := [], stopRequested := false }
        ( "EXIT".data)).listening = false
    ∧ (injectorStep true [ "EXIT".data]).writes = [ "/exit\n".data]
    ∧ (injectorStep true [ "EXIT".data]).loopEnded = true
    ∧ (injectorStep true [ "EXIT".data]).writes ≠ commandWrites ( "EXIT".data) := by
  decide

/-- C10: the listening latch is cleared only by the phrase-free branch:
when the latch is armed and an utterance holding a wake phrase with
(filler-stripped) nonempty trailing text arrives, its command is
enqueued and the latch stays armed, so a following phrase-free utterance
is also enqueued verbatim and only then is the latch cleared. -/
theorem c10_latch_survives_phrase_command (s : DispatchState)
    (text next c : List Char)
    (hstop : s.stopRequested = false)
    (hlatch : s.listening = true)
    (hne : (pyStrip text).isEmpty = false)
    (hexit : (containsSeq ( "exit".data) (pyLower text)
              && containsSeq ( "claude".data) (pyLower text)) = false)
    (hx : extract_command text = some c)
    (hc : c.isEmpty = false)
    (hnne : (pyStrip next).isEmpty = false)
    (hnexit : (containsSeq ( "exit".data) (pyLower next)
               && containsSeq ( "claude".data) (pyLower next)) = false)
    (hnx : extract_command next = none) :
    (dispatchStep s text).listening = true
    ∧ (dispatchStep s text).queue = s.queue ++ [c]
    ∧ (dispatchStep (dispatchStep s text) next).queue = s.queue ++ [c, next]
    ∧ (dispatchStep (dispatchStep s text) next).listening = false := by
  simp [dispatchStep, hstop, hlatch, hne, hexit, hx, hc, hnne, hnexit, hnx]

/-- C10 witness: the armed latch survives the command "claude run tests"
and the following phrase-free utterance "show the diff" is then enqueued
verbatim. -/
theorem c10_latch_survives_phrase_command_witness :
    (dispatchStep { listening := true, queue := [], stopRequested := false }
        ( "claude run tests".data)).listening = true
    ∧ (dispatchStep { listening := true, queue := [], stopRequested := false }
        ( "claude run tests".data)).queue = [ "run tests".data]
    ∧ (dispatchStep
        (dispatchStep { listening := true, queue := [], stopRequested := false }
          ( "claude run tests".data)) ( "show the diff".data)).queue
        = [ "run tests".data, "show the diff".data]
    ∧ (dispatchStep
        (dispatchStep { listening := true, queue := [], stopRequested := false }
          ( "claude run tests".data)) ( "show the diff".data)).listening = false := by
  simpa using
    c10_latch_survives_phrase_command
      { listening := true, queue := [], stopRequested := false }
      ( "claude run tests".data) ( "show the diff".data) ( "run tests".data)
      rfl rfl (by decide) (by decide) (by decide) (by decide)
      (by decide) (by decide) (by decide)
